import Mathlib

/-!
Verification of the tool-dispatch and session-state layer of a
blockchain-wallet command dispatcher (a Model Context Protocol server for
the Solana network).  The definitions below are a shallow embedding of the
TypeScript source (src/index.ts): the in-process wallet store, the network
registry and connection lifecycle, the timeout guard, and the individual
tool handlers, with external ledger calls represented by oracle arguments
and an explicit call trace.

Conventions of the embedding:
* JavaScript numbers used as currency amounts are modelled as rationals,
  and Math.floor as Int.floor.
* Asynchronous ledger calls are modelled by oracle parameters supplying
  their results, and every outgoing call is recorded in a trace list so
  that "no network call happens" is a provable statement.
* Thrown exceptions are modelled by Except.error carrying the message
  string (quotation marks around interpolated names are elided).
* Map iteration/insertion is modelled by an association list.
-/

/-! ### Base58 encoding (the bs58 dependency) -/

/-- The base58 digit alphabet used by bs58. -/
def b58Digits : List Char :=
  "123456789ABCDEFGHJKLMNPQRSTUVWXYZabcdefghijkmnopqrstuvwxyz".toList

/-- Index of a character in the base58 alphabet, none if not a base58 digit. -/
def b58Index (c : Char) : Option Nat :=
  b58Digits.findIdx? (fun d => d = c)

/-- Big-endian byte expansion of a natural number; fuel bounds the number of
bytes produced (callers pass a bound derived from the input length). -/
def natToBytesGo : Nat → Nat → List Nat
  | 0, _ => []
  | fuel + 1, n => if n = 0 then [] else natToBytesGo fuel (n / 256) ++ [n % 256]

/-- Number of leading base58 zero digits (the character 1), each of which
stands for one leading zero byte. -/
def countLeadingOnes : List Char → Nat
  | [] => 0
  | c :: cs => if c = '1' then countLeadingOnes cs + 1 else 0

/-- bs58.decode: turn a base58 string into its byte list, none when the
string contains a character outside the alphabet. -/
def base58Decode (sStr : String) : Option (List Nat) :=
  match (sStr.toList.mapM b58Index) with
  | none => none
  | some ds =>
    let v := ds.foldl (fun acc d => acc * 58 + d) 0
    some (List.replicate (countLeadingOnes sStr.toList) 0 ++
          natToBytesGo sStr.length v)

/-- Base58 digit expansion of a natural number (little-endian fuel recursion,
result big-endian). -/
def natToB58Go : Nat → Nat → List Char
  | 0, _ => []
  | fuel + 1, n =>
    if n = 0 then []
    else natToB58Go fuel (n / 58) ++ [b58Digits.getD (n % 58) '1']

/-- bs58.encode: byte list to base58 string. -/
def base58Encode (bytes : List Nat) : String :=
  let z := (bytes.takeWhile (fun b => b = 0)).length
  let v := bytes.foldl (fun acc b => acc * 256 + b) 0
  String.mk (List.replicate z '1' ++ natToB58Go (2 * bytes.length + 1) v)

/-! ### Keypairs and public keys (the web3.js dependency surface) -/

/-- A signing keypair: 64 secret bytes whose second half is the public key.
The publicKey field caches the base58 rendering of those last 32 bytes,
mirroring Keypair.fromSecretKey / keypair.publicKey.toString(). -/
structure Keypair where
  secretKey : List Nat
  publicKey : String
deriving DecidableEq

/-- Keypair.fromSecretKey: succeeds exactly on 64-byte key material, and the
public key is the second 32-byte half of the secret key. -/
def keypairFromSecretKey (bytes : List Nat) : Option Keypair :=
  if bytes.length = 64 then
    some { secretKey := bytes, publicKey := base58Encode (bytes.drop 32) }
  else none

/-- new PublicKey(s): succeeds exactly when s is base58 and decodes to 32
bytes; the address value is kept in its base58 string form. -/
def publicKeyParse (sStr : String) : Option String :=
  match base58Decode sStr with
  | none => none
  | some bs => if bs.length = 32 then some sStr else none

/-- getAssociatedTokenAddress, abstracted to an injective pairing of mint and
owner (the PDA derivation itself lives in the external spl-token library). -/
def getAssociatedTokenAddress (mint owner : String) : String :=
  "ata:" ++ mint ++ ":" ++ owner

/-! ### Network registry and connection state -/

/-- The process environment overrides: SOLANA_MAINNET_RPC and friends. -/
structure Env where
  mainnetRpc : Option String
  devnetRpc : Option String
  testnetRpc : Option String
  localhostRpc : Option String
  customRpc : Option String
deriving DecidableEq

/-- JavaScript a || b on strings: undefined and the empty string are falsy. -/
def jsOr (a : Option String) (b : String) : String :=
  match a with
  | some s => if s = "" then b else s
  | none => b

/-- The NETWORKS table: each entry is process.env.X || default, so an
environment override that is unset or the empty string (falsy under the JS
||) yields the hardcoded default; the custom slot has the empty string as
its default; unknown identifiers are absent. -/
def NETWORKS (env : Env) (k : String) : Option String :=
  if k = "mainnet" then some (jsOr env.mainnetRpc "https://api.mainnet-beta.solana.com")
  else if k = "devnet" then some (jsOr env.devnetRpc "https://api.devnet.solana.com")
  else if k = "testnet" then some (jsOr env.testnetRpc "https://api.testnet.solana.com")
  else if k = "localhost" then some (jsOr env.localhostRpc "http://127.0.0.1:8899")
  else if k = "custom" then some (jsOr env.customRpc "")
  else none

/-- A live connection handle (new Connection(rpcUrl, "confirmed")). -/
structure Conn where
  rpcUrl : String
  commitment : String
deriving DecidableEq

/-- The module-level mutable state of the server process. -/
structure ServerState where
  wallets : List (String × Keypair)
  currentNetwork : String
  connection : Option Conn
  connectionInitialized : Bool
deriving DecidableEq

/-- State at process start: no wallets, devnet selected, no connection. -/
def initialState : ServerState :=
  { wallets := [], currentNetwork := "devnet",
    connection := none, connectionInitialized := false }

/-- initializeConnection(network): sets currentNetwork and rebuilds the
connection against NETWORKS[network] || NETWORKS.devnet.  Note that it does
NOT touch the connectionInitialized flag. -/
def initConnection (env : Env) (s : ServerState) (network : String) : ServerState :=
  let rpcUrl := jsOr (NETWORKS env network) ((NETWORKS env "devnet").getD "")
  { s with currentNetwork := network,
           connection := some { rpcUrl := rpcUrl, commitment := "confirmed" } }

/-- ensureConnection(): on first use initializes against the default network
(devnet) and records that fact in connectionInitialized. -/
def ensureConnection (env : Env) (s : ServerState) : ServerState :=
  if s.connectionInitialized then s
  else { initConnection env s "devnet" with connectionInitialized := true }

/-! ### Trace of outgoing ledger/token-client calls -/

/-- One instruction inside a transaction. -/
inductive Instruction where
  | systemTransfer (fromPubkey toPubkey : String) (lamports : Int)
  | createAssociatedTokenAccount (payer ata owner mint : String)
  | splTransfer (source dest owner : String) (amount : Int)
deriving DecidableEq

/-- A transaction assembled by a handler before submission. -/
structure Transaction where
  instructions : List Instruction
  recentBlockhash : String
  feePayer : String
  signers : List String
deriving DecidableEq

/-- Calls a handler makes against the external ledger/token clients. -/
inductive NetCall where
  | getLatestBlockhash
  | sendTransaction (tx : Transaction)
  | getAccount (addr : String)
  | getMint (mint : String)
  | requestAirdrop (addr : String) (lamports : Int)
  | getVersion
  | getEpochInfo
  | mintToCall (mint ata : String) (amount : Int)
  | burnCall (acct mint : String) (amount : Int)
  | approveCall (acct delegate : String) (amount : Int)
  | sleepMs (ms : Nat)
deriving DecidableEq

deriving instance DecidableEq for Except

/-- Result of a handler: outcome, new server state, outgoing-call trace. -/
abbrev HandlerOut (R : Type) := Except String R × ServerState × List NetCall

/-! ### Wallet handlers -/

structure CreateWalletResult where
  name : String
  address : String
  privateKey : String
deriving DecidableEq

/-- handleCreateWallet: fails when the name is already bound, otherwise
binds the freshly generated keypair (supplied here as the oracle gen) and
returns the address together with the encoded secret. -/
def handleCreateWallet (s : ServerState) (gen : Keypair) (name : String) :
    HandlerOut CreateWalletResult :=
  if (s.wallets.lookup name).isSome then
    (.error ("Wallet with name " ++ name ++ " already exists"), s, [])
  else
    (.ok { name := name, address := gen.publicKey,
           privateKey := base58Encode gen.secretKey },
     { s with wallets := s.wallets ++ [(name, gen)] }, [])

structure ImportWalletResult where
  name : String
  address : String
deriving DecidableEq

/-- handleImportWallet: duplicate-name check first, then base58 decode and
keypair reconstruction, failing on malformed key material. -/
def handleImportWallet (s : ServerState) (name privateKey : String) :
    HandlerOut ImportWalletResult :=
  if (s.wallets.lookup name).isSome then
    (.error ("Wallet with name " ++ name ++ " already exists"), s, [])
  else
    match base58Decode privateKey >>= keypairFromSecretKey with
    | none => (.error "Invalid private key", s, [])
    | some kp =>
      (.ok { name := name, address := kp.publicKey },
       { s with wallets := s.wallets ++ [(name, kp)] }, [])

structure WalletListing where
  names : List (String × String)
  count : Nat
deriving DecidableEq

/-- handleListWallets: names and addresses of all bound wallets. -/
def handleListWallets (s : ServerState) : HandlerOut WalletListing :=
  let l := s.wallets.map (fun p => (p.1, p.2.publicKey))
  (.ok { names := l, count := l.length }, s, [])

/-! ### Claim C1: duplicate names are rejected without mutating the store -/

/-- C1: a create_wallet or import_wallet call whose name is already bound in
the wallet store fails with the duplicate-identity error and leaves the
whole store (in particular the existing binding for that name) unchanged,
adding no new binding. -/
theorem createImport_duplicate_rejected (s : ServerState) (gen : Keypair)
    (name privateKey : String) (kp0 : Keypair)
    (hbound : s.wallets.lookup name = some kp0) :
    handleCreateWallet s gen name =
      (.error ("Wallet with name " ++ name ++ " already exists"), s, []) ∧
    handleImportWallet s name privateKey =
      (.error ("Wallet with name " ++ name ++ " already exists"), s, []) ∧
    ((handleCreateWallet s gen name).2.1).wallets.lookup name = some kp0 ∧
    ((handleImportWallet s name privateKey).2.1).wallets.lookup name = some kp0 := by
  have hs : (s.wallets.lookup name).isSome = true := by
    rw [hbound]; rfl
  refine ⟨?_, ?_, ?_, ?_⟩ <;>
    simp [handleCreateWallet, handleImportWallet, hs, hbound]

/-- Concrete instantiation of the C1 theorem: a store already holding the
name w rejects both duplicate calls and keeps the original binding. -/
theorem createImport_duplicate_rejected_witness :
    (let kp0 : Keypair := { secretKey := List.replicate 64 0, publicKey := "pk0" }
     let s : ServerState := { initialState with wallets := [("w", kp0)] }
     let gen : Keypair := { secretKey := List.replicate 64 1, publicKey := "pk1" }
     handleCreateWallet s gen "w" =
        (.error "Wallet with name w already exists", s, []) ∧
     handleImportWallet s "w" "3" =
        (.error "Wallet with name w already exists", s, []) ∧
     ((handleCreateWallet s gen "w").2.1).wallets.lookup "w" = some kp0 ∧
     ((handleImportWallet s "w" "3").2.1).wallets.lookup "w" = some kp0) := by
  exact createImport_duplicate_rejected _ _ "w" "3" _ rfl

/-! ### Timeout guard -/

/-- Denotation of an asynchronous operation: the time at which it settles
(none when it never settles) and its outcome once settled. -/
structure AsyncOp (α : Type) where
  settleTime : Option Nat
  outcome : Except String α

/-- withTimeout(promise, timeoutMs): Promise.race of the operation against a
timer that rejects with "Operation timed out" at the deadline.  The result
records the settle time of the race and the delivered outcome; on a tie the
timer is taken (the claim only constrains the strict cases).  The source
default for timeoutMs is 10000, exposed below as withTimeoutDefault. -/
def withTimeout {α : Type} (op : AsyncOp α) (timeoutMs : Nat) :
    Nat × Except String α :=
  match op.settleTime with
  | none => (timeoutMs, .error "Operation timed out")
  | some t => if t < timeoutMs then (t, op.outcome)
              else (timeoutMs, .error "Operation timed out")

/-- withTimeout with its default 10000 ms deadline. -/
def withTimeoutDefault {α : Type} (op : AsyncOp α) : Nat × Except String α :=
  withTimeout op 10000

/-! ### Network handlers -/

structure SwitchResult where
  success : Bool
  network : String
  rpcUrl : Option String
deriving DecidableEq

/-- handleSwitchNetwork: unconditionally rebuilds the connection against the
requested network and reports success; the rpcUrl field echoes the raw
registry entry (absent for unknown identifiers).  It does not set the
connectionInitialized flag. -/
def handleSwitchNetwork (env : Env) (s : ServerState) (network : String) :
    HandlerOut SwitchResult :=
  let s1 := initConnection env s network
  (.ok { success := true, network := s1.currentNetwork,
         rpcUrl := NETWORKS env network }, s1, [])

structure NetworkInfoResult where
  network : String
  rpcUrl : Option String
  version : String
  epoch : Nat
  slotIndex : Nat
  slotsInEpoch : Nat
deriving DecidableEq

/-- handleGetNetworkInfo: ensures a connection, then reports the current
network and its registry entry together with oracle-supplied version and
epoch data from the ledger. -/
def handleGetNetworkInfo (env : Env) (s : ServerState) (version : String)
    (epoch slotIndex slotsInEpoch : Nat) : HandlerOut NetworkInfoResult :=
  let s1 := ensureConnection env s
  (.ok { network := s1.currentNetwork, rpcUrl := NETWORKS env s1.currentNetwork,
         version := version, epoch := epoch, slotIndex := slotIndex,
         slotsInEpoch := slotsInEpoch },
   s1, [.getVersion, .getEpochInfo])

structure BlockhashResult where
  blockhash : String
  network : String
deriving DecidableEq

/-- handleGetRecentBlockhash: ensures a connection and reports the latest
blockhash (oracle) with the current network. -/
def handleGetRecentBlockhash (env : Env) (s : ServerState) (blockhash : String) :
    HandlerOut BlockhashResult :=
  let s1 := ensureConnection env s
  (.ok { blockhash := blockhash, network := s1.currentNetwork },
   s1, [.getLatestBlockhash])

structure HealthResult where
  status : String
  network : String
  rpcUrl : Option String
  connectionCheck : String
  walletsLoaded : Nat
  solanaVersion : Option String
  errMsg : Option String
deriving DecidableEq

/-- handleHealthCheck: snapshots the network fields, then races getVersion
against a 5000 ms deadline; reports healthy on success and degraded (still a
normal result, not a failure) when the sub-check fails or times out. -/
def handleHealthCheck (env : Env) (s : ServerState) (versionCall : AsyncOp String) :
    HandlerOut HealthResult :=
  let netField := s.currentNetwork
  let rpcField := NETWORKS env s.currentNetwork
  let s1 := ensureConnection env s
  match (withTimeout versionCall 5000).2 with
  | .ok v =>
    (.ok { status := "healthy", network := netField, rpcUrl := rpcField,
           connectionCheck := "healthy", walletsLoaded := s.wallets.length,
           solanaVersion := some v, errMsg := none }, s1, [.getVersion])
  | .error e =>
    (.ok { status := "degraded", network := netField, rpcUrl := rpcField,
           connectionCheck := "unhealthy", walletsLoaded := s.wallets.length,
           solanaVersion := none, errMsg := some e }, s1, [.getVersion])

structure AirdropResult where
  success : Bool
  signature : String
  amount : Rat
  explorerUrl : String
deriving DecidableEq

/-- handleAirdropSol: denies on mainnet before the wallet-existence check and
before any ledger call; otherwise looks the wallet up, ensures a connection
and requests floor(amount * 10^9) lamports from the faucet. -/
def handleAirdropSol (env : Env) (s : ServerState) (walletName : String)
    (amount : Rat) (sig : String) : HandlerOut AirdropResult :=
  if s.currentNetwork = "mainnet" then
    (.error "Airdrop is not available on mainnet", s, [])
  else
    match s.wallets.lookup walletName with
    | none => (.error ("Wallet " ++ walletName ++ " not found"), s, [])
    | some w =>
      let s1 := ensureConnection env s
      let lamports : Int := ⌊amount * 1000000000⌋
      (.ok { success := true, signature := sig, amount := amount,
             explorerUrl := "https://explorer.solana.com/tx/" ++ sig ++
               "?cluster=" ++ s1.currentNetwork },
       s1, [.requestAirdrop w.publicKey lamports])

/-! ### Claim C2: network selection is clobbered by lazy initialization -/

/-- C2 (divergence demonstration): on a fresh process, switch_network to
mainnet returns success reporting mainnet, yet the next get_network_info
re-runs the lazy initializer (connectionInitialized was never set by the
switch) and reports devnet against the devnet endpoint — the switch does not
stick, contradicting the network-switch determinism property.  With the
initialization flag already set the same sequence does report mainnet,
confirming the flag slip is the cause. -/
theorem switchNetwork_clobbered_by_ensureConnection :
    (let env : Env := ⟨none, none, none, none, none⟩
     let afterSwitch := (handleSwitchNetwork env initialState "mainnet").2.1
     ((handleSwitchNetwork env initialState "mainnet").1 =
        .ok { success := true, network := "mainnet",
              rpcUrl := some "https://api.mainnet-beta.solana.com" }) ∧
     afterSwitch.currentNetwork = "mainnet" ∧
     afterSwitch.connectionInitialized = false ∧
     ((handleGetNetworkInfo env afterSwitch "v" 0 0 0).1 =
        .ok { network := "devnet",
              rpcUrl := some "https://api.devnet.solana.com",
              version := "v", epoch := 0, slotIndex := 0, slotsInEpoch := 0 }) ∧
     (let primed := { afterSwitch with connectionInitialized := true }
      ((handleGetNetworkInfo env primed "v" 0 0 0).1 =
        .ok { network := "mainnet",
              rpcUrl := some "https://api.mainnet-beta.solana.com",
              version := "v", epoch := 0, slotIndex := 0, slotsInEpoch := 0 }))) := by
  refine ⟨rfl, rfl, rfl, rfl, rfl⟩

/-! ### Claim C3: airdrop is denied on mainnet before any ledger call -/

/-- C3: whenever the current network is mainnet, airdrop_sol fails with the
operation-not-permitted error, makes zero ledger calls, leaves the state
untouched, and does so uniformly in the wallet name and amount (the denial
precedes the wallet-existence check). -/
theorem airdrop_mainnet_denied (env : Env) (s : ServerState)
    (walletName : String) (amount : Rat) (sig : String)
    (hnet : s.currentNetwork = "mainnet") :
    handleAirdropSol env s walletName amount sig =
      (.error "Airdrop is not available on mainnet", s, []) := by
  simp [handleAirdropSol, hnet]

/-- Concrete instantiation of the C3 theorem: on mainnet, even with an empty
wallet store and an unknown wallet name the airdrop is denied with no ledger
call and no state change. -/
theorem airdrop_mainnet_denied_witness :
    (let s := { initialState with currentNetwork := "mainnet" }
     handleAirdropSol ⟨none, none, none, none, none⟩ s "ghost" 5 "sig" =
       (.error "Airdrop is not available on mainnet", s, [])) := by
  exact airdrop_mainnet_denied _ _ "ghost" 5 "sig" rfl

/-! ### Balance and transfer handlers -/

/-- A fetched token account (the fields the handlers read). -/
structure TokenAcct where
  amount : Nat
  mint : String
deriving DecidableEq

structure TokenBalanceResult where
  wallet : String
  tokenMint : String
  balance : String
  decimals : Option String
  errorNote : Option String
deriving DecidableEq

/-- handleGetTokenBalance: wallet lookup, then a try block covering the mint
parse, the associated-token-address derivation and the account fetch; ANY
failure inside the try (a malformed mint included) is caught and turned into
a success-shaped payload with balance "0" and an error note.  The acct
oracle is the result of getAccount (none = the fetch throws).  The source
fills the decimals field with accountInfo.mint.toString(). -/
def handleGetTokenBalance (env : Env) (s : ServerState)
    (walletName tokenMint : String) (acct : Option TokenAcct) :
    HandlerOut TokenBalanceResult :=
  match s.wallets.lookup walletName with
  | none => (.error ("Wallet " ++ walletName ++ " not found"), s, [])
  | some w =>
    let s1 := ensureConnection env s
    match publicKeyParse tokenMint with
    | none =>
      (.ok { wallet := walletName, tokenMint := tokenMint, balance := "0",
             decimals := none,
             errorNote := some "Token account not found or error retrieving balance" },
       s1, [])
    | some _ =>
      let ata := getAssociatedTokenAddress tokenMint w.publicKey
      match acct with
      | none =>
        (.ok { wallet := walletName, tokenMint := tokenMint, balance := "0",
               decimals := none,
               errorNote := some "Token account not found or error retrieving balance" },
         s1, [.getAccount ata])
      | some a =>
        (.ok { wallet := walletName, tokenMint := tokenMint,
               balance := toString a.amount, decimals := some a.mint,
               errorNote := none },
         s1, [.getAccount ata])

structure TransferResult where
  success : Bool
  signature : String
  explorerUrl : String
deriving DecidableEq

/-- handleTransferSol: wallet lookup, destination parse (a parse failure is
thrown and surfaces as the handler error), lamports = floor(amount * 10^9),
then a single-instruction system transfer is anchored, signed and sent. -/
def handleTransferSol (env : Env) (s : ServerState)
    (fromWallet toAddress : String) (amount : Rat)
    (blockhash sig : String) : HandlerOut TransferResult :=
  match s.wallets.lookup fromWallet with
  | none => (.error ("Wallet " ++ fromWallet ++ " not found"), s, [])
  | some w =>
    let s1 := ensureConnection env s
    match publicKeyParse toAddress with
    | none => (.error "Invalid public key input", s1, [])
    | some _ =>
      let lamports : Int := ⌊amount * 1000000000⌋
      let tx : Transaction :=
        { instructions := [.systemTransfer w.publicKey toAddress lamports],
          recentBlockhash := blockhash, feePayer := w.publicKey,
          signers := [w.publicKey] }
      (.ok { success := true, signature := sig,
             explorerUrl := "https://explorer.solana.com/tx/" ++ sig ++
               "?cluster=" ++ s1.currentNetwork },
       s1, [.getLatestBlockhash, .sendTransaction tx])

/-- handleTransferTokens: wallet lookup, mint and destination parses, then a
single transaction is built: when the fetch of the destination associated
token account throws (ataExists = false) an account-creation instruction is
prepended, and in every case the spl transfer of floor(amount) raw units is
appended; exactly one sendTransaction follows. -/
def handleTransferTokens (env : Env) (s : ServerState)
    (fromWallet toAddress tokenMint : String) (amount : Rat)
    (ataExists : Bool) (blockhash sig : String) : HandlerOut TransferResult :=
  match s.wallets.lookup fromWallet with
  | none => (.error ("Wallet " ++ fromWallet ++ " not found"), s, [])
  | some w =>
    let s1 := ensureConnection env s
    match publicKeyParse tokenMint with
    | none => (.error "Invalid public key input", s1, [])
    | some _ =>
      match publicKeyParse toAddress with
      | none => (.error "Invalid public key input", s1, [])
      | some _ =>
        let fromAta := getAssociatedTokenAddress tokenMint w.publicKey
        let toAta := getAssociatedTokenAddress tokenMint toAddress
        let createIxs : List Instruction :=
          if ataExists then []
          else [.createAssociatedTokenAccount w.publicKey toAta toAddress tokenMint]
        let tx : Transaction :=
          { instructions :=
              createIxs ++ [.splTransfer fromAta toAta w.publicKey ⌊amount⌋],
            recentBlockhash := blockhash, feePayer := w.publicKey,
            signers := [w.publicKey] }
        (.ok { success := true, signature := sig,
               explorerUrl := "https://explorer.solana.com/tx/" ++ sig ++
                 "?cluster=" ++ s1.currentNetwork },
         s1, [.getAccount toAta, .getLatestBlockhash, .sendTransaction tx])

/-- The transactions submitted within a call trace. -/
def sentTxs (t : List NetCall) : List Transaction :=
  t.filterMap (fun c => match c with
    | .sendTransaction tx => some tx
    | _ => none)

/-- The system-transfer lamport amounts carried by a transaction. -/
def txLamports (tx : Transaction) : List Int :=
  tx.instructions.filterMap (fun i => match i with
    | .systemTransfer _ _ l => some l
    | _ => none)

/-! ### Claim C4: native transfers truncate the decimal amount -/

/-- C4: on the successful path of transfer_sol (wallet bound, destination
parseable) the single submitted transaction carries a single system-transfer
instruction whose lamport amount is the truncation floor(amount * 10^9)
of the caller-supplied decimal amount. -/
theorem transferSol_lamports_truncated (env : Env) (s : ServerState)
    (fromWallet toAddress : String) (amount : Rat) (bh sig : String)
    (w : Keypair) (pk : String)
    (hw : s.wallets.lookup fromWallet = some w)
    (hp : publicKeyParse toAddress = some pk) :
    (handleTransferSol env s fromWallet toAddress amount bh sig).2.2 =
      [.getLatestBlockhash,
       .sendTransaction
         { instructions :=
             [.systemTransfer w.publicKey toAddress ⌊amount * 1000000000⌋],
           recentBlockhash := bh, feePayer := w.publicKey,
           signers := [w.publicKey] }] := by
  simp [handleTransferSol, hw, hp]

/-- Concrete instantiation of the C4 theorem at amount 1.2345678909, whose
fractional lamport part .9 would round up: the transferred lamports are the
floor 1234567890919... truncated value 1234567890, and rounding would have
given 1234567891 instead. -/
theorem transferSol_lamports_truncated_witness :
    ((handleTransferSol ⟨none, none, none, none, none⟩
        { initialState with wallets :=
            [("w", { secretKey := List.replicate 64 0, publicKey := "pk0" })] }
        "w" "11111111111111111111111111111111"
        ((12345678909 : Rat) / 10000000000) "bh" "sig").2.2 =
       [.getLatestBlockhash,
        .sendTransaction
          { instructions :=
              [.systemTransfer "pk0" "11111111111111111111111111111111" 1234567890],
            recentBlockhash := "bh", feePayer := "pk0", signers := ["pk0"] }]) ∧
    (⌊((12345678909 : Rat) / 10000000000) * 1000000000⌋ = 1234567890) ∧
    (round (((12345678909 : Rat) / 10000000000) * 1000000000) = 1234567891) := by
  refine ⟨?_, by norm_num, by norm_num [round_eq]⟩
  have h := transferSol_lamports_truncated ⟨none, none, none, none, none⟩
    { initialState with wallets :=
        [("w", { secretKey := List.replicate 64 0, publicKey := "pk0" })] }
    "w" "11111111111111111111111111111111"
    ((12345678909 : Rat) / 10000000000) "bh" "sig"
    { secretKey := List.replicate 64 0, publicKey := "pk0" }
    "11111111111111111111111111111111" (by decide) (by decide)
  rw [h]
  norm_num

/-! ### Claim C5: token transfer is a single atomic submission -/

/-- C5: on the successful path of transfer_tokens exactly one transaction is
submitted; when the destination associated token account is missing the
account-creation instruction is prepended to the very transaction carrying
the transfer instruction, and when it exists the transaction carries the
transfer instruction alone — never a second, separate creation
transaction. -/
theorem transferTokens_single_atomic_tx (env : Env) (s : ServerState)
    (fromWallet toAddress tokenMint : String) (amount : Rat)
    (ataExists : Bool) (bh sig : String) (w : Keypair) (pm pt : String)
    (hw : s.wallets.lookup fromWallet = some w)
    (hpm : publicKeyParse tokenMint = some pm)
    (hpt : publicKeyParse toAddress = some pt) :
    (sentTxs (handleTransferTokens env s fromWallet toAddress tokenMint amount
        ataExists bh sig).2.2).length = 1 ∧
    (ataExists = true →
      sentTxs (handleTransferTokens env s fromWallet toAddress tokenMint amount
          ataExists bh sig).2.2 =
        [{ instructions :=
             [.splTransfer (getAssociatedTokenAddress tokenMint w.publicKey)
                (getAssociatedTokenAddress tokenMint toAddress)
                w.publicKey ⌊amount⌋],
           recentBlockhash := bh, feePayer := w.publicKey,
           signers := [w.publicKey] }]) ∧
    (ataExists = false →
      sentTxs (handleTransferTokens env s fromWallet toAddress tokenMint amount
          ataExists bh sig).2.2 =
        [{ instructions :=
             [.createAssociatedTokenAccount w.publicKey
                (getAssociatedTokenAddress tokenMint toAddress)
                toAddress tokenMint,
              .splTransfer (getAssociatedTokenAddress tokenMint w.publicKey)
                (getAssociatedTokenAddress tokenMint toAddress)
                w.publicKey ⌊amount⌋],
           recentBlockhash := bh, feePayer := w.publicKey,
           signers := [w.publicKey] }]) := by
  cases ataExists <;>
    simp [handleTransferTokens, hw, hpm, hpt, sentTxs]

/-- Concrete instantiation of the C5 theorem with a missing destination
account: the one submitted transaction carries creation then transfer. -/
theorem transferTokens_single_atomic_tx_witness :
    ((sentTxs (handleTransferTokens ⟨none, none, none, none, none⟩
        { initialState with wallets :=
            [("w", { secretKey := List.replicate 64 0, publicKey := "pk0" })] }
        "w" "11111111111111111111111111111111"
        "11111111111111111111111111111111" 7 false "bh" "sig").2.2).length = 1) ∧
    (false = false →
      sentTxs (handleTransferTokens ⟨none, none, none, none, none⟩
        { initialState with wallets :=
            [("w", { secretKey := List.replicate 64 0, publicKey := "pk0" })] }
        "w" "11111111111111111111111111111111"
        "11111111111111111111111111111111" 7 false "bh" "sig").2.2 =
        [{ instructions :=
             [.createAssociatedTokenAccount "pk0"
                (getAssociatedTokenAddress "11111111111111111111111111111111"
                  "11111111111111111111111111111111")
                "11111111111111111111111111111111"
                "11111111111111111111111111111111",
              .splTransfer
                (getAssociatedTokenAddress "11111111111111111111111111111111" "pk0")
                (getAssociatedTokenAddress "11111111111111111111111111111111"
                  "11111111111111111111111111111111")
                "pk0" 7],
           recentBlockhash := "bh", feePayer := "pk0", signers := ["pk0"] }]) := by
  have h := transferTokens_single_atomic_tx ⟨none, none, none, none, none⟩
    { initialState with wallets :=
        [("w", { secretKey := List.replicate 64 0, publicKey := "pk0" })] }
    "w" "11111111111111111111111111111111" "11111111111111111111111111111111"
    7 false "bh" "sig"
    { secretKey := List.replicate 64 0, publicKey := "pk0" }
    "11111111111111111111111111111111" "11111111111111111111111111111111"
    (by decide) (by decide) (by decide)
  refine ⟨h.1, fun _ => ?_⟩
  have h3 := h.2.2 rfl
  rw [h3]
  norm_num

/-! ### Claim C6: timeout guard semantics and deadlines -/

/-- C6: the timeout race fails with the timeout failure exactly at the
deadline whenever the wrapped operation never settles or settles no earlier
than the deadline, and delivers the operation outcome unchanged at its
settle time when it settles strictly first; the default deadline is
10000 ms, and the health check races its version sub-check against 5000 ms —
settling at 4999 yields healthy, at 5000 or never yields degraded. -/
theorem withTimeout_race_semantics :
    (∀ (α : Type) (op : AsyncOp α) (deadline : Nat), op.settleTime = none →
      withTimeout op deadline = (deadline, .error "Operation timed out")) ∧
    (∀ (α : Type) (op : AsyncOp α) (deadline t : Nat), op.settleTime = some t →
      deadline ≤ t →
      withTimeout op deadline = (deadline, .error "Operation timed out")) ∧
    (∀ (α : Type) (op : AsyncOp α) (deadline t : Nat), op.settleTime = some t →
      t < deadline → withTimeout op deadline = (t, op.outcome)) ∧
    (∀ (α : Type) (op : AsyncOp α), op.settleTime = none →
      withTimeoutDefault op = (10000, .error "Operation timed out")) ∧
    (∀ (env : Env) (s : ServerState) (v : String),
      (handleHealthCheck env s { settleTime := none, outcome := .ok v }).1 =
        .ok { status := "degraded", network := s.currentNetwork,
              rpcUrl := NETWORKS env s.currentNetwork,
              connectionCheck := "unhealthy", walletsLoaded := s.wallets.length,
              solanaVersion := none, errMsg := some "Operation timed out" }) ∧
    (∀ (env : Env) (s : ServerState) (v : String) (t : Nat), t < 5000 →
      (handleHealthCheck env s { settleTime := some t, outcome := .ok v }).1 =
        .ok { status := "healthy", network := s.currentNetwork,
              rpcUrl := NETWORKS env s.currentNetwork,
              connectionCheck := "healthy", walletsLoaded := s.wallets.length,
              solanaVersion := some v, errMsg := none }) ∧
    (∀ (env : Env) (s : ServerState) (v : String),
      (handleHealthCheck env s { settleTime := some 5000, outcome := .ok v }).1 =
        .ok { status := "degraded", network := s.currentNetwork,
              rpcUrl := NETWORKS env s.currentNetwork,
              connectionCheck := "unhealthy", walletsLoaded := s.wallets.length,
              solanaVersion := none, errMsg := some "Operation timed out" }) := by
  refine ⟨?_, ?_, ?_, ?_, ?_, ?_, ?_⟩
  · intro α op deadline h; simp [withTimeout, h]
  · intro α op deadline t h hle
    simp [withTimeout, h, Nat.not_lt.mpr hle]
  · intro α op deadline t h hlt; simp [withTimeout, h, hlt]
  · intro α op h; simp [withTimeoutDefault, withTimeout, h]
  · intro env s v; simp [handleHealthCheck, withTimeout]
  · intro env s v t hlt; simp [handleHealthCheck, withTimeout, hlt]
  · intro env s v; simp [handleHealthCheck, withTimeout]

/-- Concrete instantiation of the C6 theorem: a never-settling operation
under the default deadline fails at 10000 ms with the timeout failure, an
operation settling at 3 ms with result 42 under a 7 ms deadline returns 42
at 3 ms, and a version sub-check settling at 4999 versus 5000 ms flips the
health status between healthy and degraded. -/
theorem withTimeout_race_semantics_witness :
    (withTimeoutDefault { settleTime := none, outcome := (.ok 0 : Except String Nat) } =
      (10000, .error "Operation timed out")) ∧
    (withTimeout { settleTime := some 3, outcome := (.ok 42 : Except String Nat) } 7 =
      (3, .ok 42)) ∧
    ((handleHealthCheck ⟨none, none, none, none, none⟩ initialState
        { settleTime := some 4999, outcome := .ok "2.3" }).1 =
      .ok { status := "healthy", network := "devnet",
            rpcUrl := some "https://api.devnet.solana.com",
            connectionCheck := "healthy", walletsLoaded := 0,
            solanaVersion := some "2.3", errMsg := none }) ∧
    ((handleHealthCheck ⟨none, none, none, none, none⟩ initialState
        { settleTime := some 5000, outcome := .ok "2.3" }).1 =
      .ok { status := "degraded", network := "devnet",
            rpcUrl := some "https://api.devnet.solana.com",
            connectionCheck := "unhealthy", walletsLoaded := 0,
            solanaVersion := none, errMsg := some "Operation timed out" }) := by
  refine ⟨withTimeout_race_semantics.2.2.2.1 Nat _ rfl,
          withTimeout_race_semantics.2.2.1 Nat _ 7 3 rfl (by decide),
          ?_, withTimeout_race_semantics.2.2.2.2.2.2 _ _ "2.3"⟩
  have h := withTimeout_race_semantics.2.2.2.2.2.1
    ⟨none, none, none, none, none⟩ initialState "2.3" 4999 (by decide)
  simpa using h

/-! ### Claim C7: surfacing of malformed-address parse failures -/

/-- C7 counterexample: the string 0 is not parseable as an address (0 is not
a base58 digit), yet get_token_balance on a bound wallet with that mint does
not fail with the invalid-address error — it returns a success-shaped
payload with balance "0", refuting the claim that every handler surfaces the
parse failure as an error result. -/
theorem getTokenBalance_malformed_mint_success_shaped :
    publicKeyParse "0" = none ∧
    (handleGetTokenBalance ⟨none, none, none, none, none⟩
        { initialState with wallets :=
            [("w", { secretKey := List.replicate 64 0, publicKey := "pk0" })] }
        "w" "0" none).1 =
      .ok { wallet := "w", tokenMint := "0", balance := "0", decimals := none,
            errorNote := some "Token account not found or error retrieving balance" } := by
  exact ⟨by decide, by decide⟩

/-- C7 amended: a malformed caller-supplied address or mint string surfaces
as the invalid-address error in transfer_sol and transfer_tokens (with no
ledger call), but get_token_balance instead catches the parse failure and
returns a success-shaped payload with balance "0" and an error note, again
with no ledger call. -/
theorem malformedAddress_error_policy (env : Env) (s : ServerState)
    (fromWallet bad toAddr : String) (amount : Rat) (ataExists : Bool)
    (bh sig : String) (acct : Option TokenAcct) (w : Keypair)
    (hw : s.wallets.lookup fromWallet = some w)
    (hbad : publicKeyParse bad = none) :
    handleTransferSol env s fromWallet bad amount bh sig =
      (.error "Invalid public key input", ensureConnection env s, []) ∧
    handleTransferTokens env s fromWallet toAddr bad amount ataExists bh sig =
      (.error "Invalid public key input", ensureConnection env s, []) ∧
    handleGetTokenBalance env s fromWallet bad acct =
      (.ok { wallet := fromWallet, tokenMint := bad, balance := "0",
             decimals := none,
             errorNote := some "Token account not found or error retrieving balance" },
       ensureConnection env s, []) := by
  refine ⟨?_, ?_, ?_⟩ <;>
    simp [handleTransferSol, handleTransferTokens, handleGetTokenBalance,
          hw, hbad]

/-- Concrete instantiation of the amended C7 theorem at the malformed
address 0. -/
theorem malformedAddress_error_policy_witness :
    (handleTransferSol ⟨none, none, none, none, none⟩
        { initialState with wallets :=
            [("w", { secretKey := List.replicate 64 0, publicKey := "pk0" })] }
        "w" "0" 1 "bh" "sig" =
      (.error "Invalid public key input",
       ensureConnection ⟨none, none, none, none, none⟩
         { initialState with wallets :=
             [("w", { secretKey := List.replicate 64 0, publicKey := "pk0" })] },
       [])) ∧
    (handleTransferTokens ⟨none, none, none, none, none⟩
        { initialState with wallets :=
            [("w", { secretKey := List.replicate 64 0, publicKey := "pk0" })] }
        "w" "dest" "0" 1 true "bh" "sig" =
      (.error "Invalid public key input",
       ensureConnection ⟨none, none, none, none, none⟩
         { initialState with wallets :=
             [("w", { secretKey := List.replicate 64 0, publicKey := "pk0" })] },
       [])) ∧
    (handleGetTokenBalance ⟨none, none, none, none, none⟩
        { initialState with wallets :=
            [("w", { secretKey := List.replicate 64 0, publicKey := "pk0" })] }
        "w" "0" none =
      (.ok { wallet := "w", tokenMint := "0", balance := "0", decimals := none,
             errorNote := some "Token account not found or error retrieving balance" },
       ensureConnection ⟨none, none, none, none, none⟩
         { initialState with wallets :=
             [("w", { secretKey := List.replicate 64 0, publicKey := "pk0" })] },
       [])) := by
  exact malformedAddress_error_policy ⟨none, none, none, none, none⟩
    { initialState with wallets :=
        [("w", { secretKey := List.replicate 64 0, publicKey := "pk0" })] }
    "w" "0" "dest" 1 true "bh" "sig" none
    { secretKey := List.replicate 64 0, publicKey := "pk0" }
    (by decide) (by decide)

/-! ### Claim C9: unknown-network fallback and endpoint resolution -/

/-- The recognized network identifiers of the registry. -/
def recognizedNetworks : List String :=
  ["mainnet", "devnet", "testnet", "localhost", "custom"]

/-- C9: switching to an identifier outside the recognized set succeeds and
builds the connection against the devnet resolution — the devnet override
when it is configured and nonempty, else the hardcoded devnet default (an
empty-string override is falsy under the JS || and also falls back); every
recognized identifier resolves to its environment override when configured
nonempty and to its hardcoded default when unset or set to the empty
string, the custom slot resolving to the empty string when unconfigured. -/
theorem switchNetwork_fallback_and_resolution :
    (∀ (env : Env) (s : ServerState) (n : String), n ∉ recognizedNetworks →
      (handleSwitchNetwork env s n).1 =
        .ok { success := true, network := n, rpcUrl := none } ∧
      (env.devnetRpc = none →
        ((handleSwitchNetwork env s n).2.1).connection =
          some { rpcUrl := "https://api.devnet.solana.com",
                 commitment := "confirmed" }) ∧
      (∀ u, u ≠ "" → env.devnetRpc = some u →
        ((handleSwitchNetwork env s n).2.1).connection =
          some { rpcUrl := u, commitment := "confirmed" })) ∧
    (∀ env : Env,
      (env.mainnetRpc = none →
        NETWORKS env "mainnet" = some "https://api.mainnet-beta.solana.com") ∧
      (env.mainnetRpc = some "" →
        NETWORKS env "mainnet" = some "https://api.mainnet-beta.solana.com") ∧
      (∀ u, u ≠ "" → env.mainnetRpc = some u →
        NETWORKS env "mainnet" = some u) ∧
      (env.devnetRpc = none →
        NETWORKS env "devnet" = some "https://api.devnet.solana.com") ∧
      (env.devnetRpc = some "" →
        NETWORKS env "devnet" = some "https://api.devnet.solana.com") ∧
      (∀ u, u ≠ "" → env.devnetRpc = some u →
        NETWORKS env "devnet" = some u) ∧
      (env.testnetRpc = none →
        NETWORKS env "testnet" = some "https://api.testnet.solana.com") ∧
      (env.testnetRpc = some "" →
        NETWORKS env "testnet" = some "https://api.testnet.solana.com") ∧
      (∀ u, u ≠ "" → env.testnetRpc = some u →
        NETWORKS env "testnet" = some u) ∧
      (env.localhostRpc = none →
        NETWORKS env "localhost" = some "http://127.0.0.1:8899") ∧
      (env.localhostRpc = some "" →
        NETWORKS env "localhost" = some "http://127.0.0.1:8899") ∧
      (∀ u, u ≠ "" → env.localhostRpc = some u →
        NETWORKS env "localhost" = some u) ∧
      (env.customRpc = none → NETWORKS env "custom" = some "") ∧
      (env.customRpc = some "" → NETWORKS env "custom" = some "") ∧
      (∀ u, u ≠ "" → env.customRpc = some u →
        NETWORKS env "custom" = some u)) := by
  constructor
  · intro env s n hn
    simp only [recognizedNetworks, List.mem_cons, List.not_mem_nil, or_false,
      not_or] at hn
    obtain ⟨h1, h2, h3, h4, h5⟩ := hn
    refine ⟨?_, ?_, ?_⟩
    · simp [handleSwitchNetwork, initConnection, NETWORKS, h1, h2, h3, h4, h5]
    · intro hd
      simp [handleSwitchNetwork, initConnection, NETWORKS,
        if_neg h1, if_neg h2, if_neg h3, if_neg h4, if_neg h5, jsOr, hd]
    · intro u hu hd
      simp [handleSwitchNetwork, initConnection, NETWORKS,
        if_neg h1, if_neg h2, if_neg h3, if_neg h4, if_neg h5, jsOr, hd, hu]
  · intro env
    refine ⟨fun h => by simp [NETWORKS, jsOr, h],
            fun h => by simp [NETWORKS, jsOr, h],
            fun u hu h => by simp [NETWORKS, jsOr, h, hu],
            fun h => by simp [NETWORKS, jsOr, h],
            fun h => by simp [NETWORKS, jsOr, h],
            fun u hu h => by simp [NETWORKS, jsOr, h, hu],
            fun h => by simp [NETWORKS, jsOr, h],
            fun h => by simp [NETWORKS, jsOr, h],
            fun u hu h => by simp [NETWORKS, jsOr, h, hu],
            fun h => by simp [NETWORKS, jsOr, h],
            fun h => by simp [NETWORKS, jsOr, h],
            fun u hu h => by simp [NETWORKS, jsOr, h, hu],
            fun h => by simp [NETWORKS, jsOr, h],
            fun h => by simp [NETWORKS, jsOr, h],
            fun u hu h => by simp [NETWORKS, jsOr, h, hu]⟩

/-- Concrete instantiation of the C9 theorem: switching to the unrecognized
identifier ropsten succeeds and lands on the devnet default endpoint, a
configured nonempty mainnet override is what mainnet resolves to, a mainnet
override set to the empty string falls back to the hardcoded default, and
an unconfigured custom slot resolves to the empty string. -/
theorem switchNetwork_fallback_and_resolution_witness :
    ("ropsten" ∉ recognizedNetworks) ∧
    ((handleSwitchNetwork ⟨none, none, none, none, none⟩ initialState "ropsten").1 =
      .ok { success := true, network := "ropsten", rpcUrl := none }) ∧
    (((handleSwitchNetwork ⟨none, none, none, none, none⟩ initialState
        "ropsten").2.1).connection =
      some { rpcUrl := "https://api.devnet.solana.com", commitment := "confirmed" }) ∧
    (NETWORKS ⟨some "https://premium.rpc", none, none, none, none⟩ "mainnet" =
      some "https://premium.rpc") ∧
    (NETWORKS ⟨some "", none, none, none, none⟩ "mainnet" =
      some "https://api.mainnet-beta.solana.com") ∧
    (NETWORKS ⟨some "https://premium.rpc", none, none, none, none⟩ "custom" =
      some "") := by
  have hmem : "ropsten" ∉ recognizedNetworks := by decide
  have h1 := switchNetwork_fallback_and_resolution.1
    ⟨none, none, none, none, none⟩ initialState "ropsten" hmem
  have h2 := switchNetwork_fallback_and_resolution.2
    ⟨some "https://premium.rpc", none, none, none, none⟩
  have h3 := switchNetwork_fallback_and_resolution.2
    ⟨some "", none, none, none, none⟩
  exact ⟨hmem, h1.1, h1.2.1 rfl,
         h2.2.2.1 "https://premium.rpc" (by decide) rfl,
         h3.2.1 rfl,
         h2.2.2.2.2.2.2.2.2.2.2.2.2.1 rfl⟩

/-! ### Token supply-side handlers (mint, burn, approve) -/

structure MintResult where
  success : Bool
  signature : String
  amount : Rat
  tokenMint : String
  destination : String
  explorerUrl : String
deriving DecidableEq

/-- handleMintTokens: after wallet lookup and the two address parses, the
mint decimals are fetched fresh from the chain (the decimals oracle stands
for getMint), the raw amount is floor(amount * 10^decimals), a missing
destination token account triggers a separate creation transaction followed
by a fixed 2000 ms sleep, and finally the mintTo client call is issued. -/
def handleMintTokens (env : Env) (s : ServerState)
    (walletName tokenMint destinationAddress : String) (amount : Rat)
    (decimals : Nat) (ataExists : Bool) (blockhash mintSig : String) :
    HandlerOut MintResult :=
  match s.wallets.lookup walletName with
  | none => (.error ("Wallet " ++ walletName ++ " not found"), s, [])
  | some w =>
    let s1 := ensureConnection env s
    match publicKeyParse tokenMint with
    | none => (.error "Invalid public key input", s1, [])
    | some _ =>
      match publicKeyParse destinationAddress with
      | none => (.error "Invalid public key input", s1, [])
      | some _ =>
        let rawAmount : Int := ⌊amount * 10 ^ decimals⌋
        let destAta := getAssociatedTokenAddress tokenMint destinationAddress
        let creation : List NetCall :=
          if ataExists then []
          else
            [.getLatestBlockhash,
             .sendTransaction
               { instructions :=
                   [.createAssociatedTokenAccount w.publicKey destAta
                      destinationAddress tokenMint],
                 recentBlockhash := blockhash, feePayer := w.publicKey,
                 signers := [w.publicKey] },
             .sleepMs 2000]
        (.ok { success := true, signature := mintSig, amount := amount,
               tokenMint := tokenMint, destination := destinationAddress,
               explorerUrl := "https://explorer.solana.com/tx/" ++ mintSig ++
                 "?cluster=" ++ s1.currentNetwork },
         s1, [.getMint tokenMint, .getAccount destAta] ++ creation ++
             [.mintToCall tokenMint destAta rawAmount])

structure BurnResult where
  success : Bool
  signature : String
  amount : Rat
  tokenMint : String
  explorerUrl : String
deriving DecidableEq

/-- handleBurnTokens: wallet lookup, mint parse, fresh decimals fetch, raw
amount floor(amount * 10^decimals), then the burn client call on the
wallets own associated token account. -/
def handleBurnTokens (env : Env) (s : ServerState)
    (walletName tokenMint : String) (amount : Rat) (decimals : Nat)
    (burnSig : String) : HandlerOut BurnResult :=
  match s.wallets.lookup walletName with
  | none => (.error ("Wallet " ++ walletName ++ " not found"), s, [])
  | some w =>
    let s1 := ensureConnection env s
    match publicKeyParse tokenMint with
    | none => (.error "Invalid public key input", s1, [])
    | some _ =>
      let rawAmount : Int := ⌊amount * 10 ^ decimals⌋
      let tokenAccount := getAssociatedTokenAddress tokenMint w.publicKey
      (.ok { success := true, signature := burnSig, amount := amount,
             tokenMint := tokenMint,
             explorerUrl := "https://explorer.solana.com/tx/" ++ burnSig ++
               "?cluster=" ++ s1.currentNetwork },
       s1, [.getMint tokenMint, .burnCall tokenAccount tokenMint rawAmount])

structure ApproveResult where
  success : Bool
  signature : String
  delegate : String
  amount : Rat
  explorerUrl : String
deriving DecidableEq

/-- handleApproveDelegate: wallet lookup, mint and delegate parses, fresh
decimals fetch, raw amount floor(amount * 10^decimals), then the approve
client call on the wallets own associated token account. -/
def handleApproveDelegate (env : Env) (s : ServerState)
    (walletName tokenMint delegateAddress : String) (amount : Rat)
    (decimals : Nat) (approveSig : String) : HandlerOut ApproveResult :=
  match s.wallets.lookup walletName with
  | none => (.error ("Wallet " ++ walletName ++ " not found"), s, [])
  | some w =>
    let s1 := ensureConnection env s
    match publicKeyParse tokenMint with
    | none => (.error "Invalid public key input", s1, [])
    | some _ =>
      match publicKeyParse delegateAddress with
      | none => (.error "Invalid public key input", s1, [])
      | some _ =>
        let rawAmount : Int := ⌊amount * 10 ^ decimals⌋
        let tokenAccount := getAssociatedTokenAddress tokenMint w.publicKey
        (.ok { success := true, signature := approveSig,
               delegate := delegateAddress, amount := amount,
               explorerUrl := "https://explorer.solana.com/tx/" ++ approveSig ++
                 "?cluster=" ++ s1.currentNetwork },
         s1, [.getMint tokenMint,
              .approveCall tokenAccount delegateAddress rawAmount])

/-- The mints whose on-chain data a call trace fetches. -/
def getMintCalls (t : List NetCall) : List String :=
  t.filterMap (fun c => match c with
    | .getMint m => some m
    | _ => none)

/-- The raw amounts of the spl transfer instructions submitted in a trace. -/
def splTransferAmounts (t : List NetCall) : List Int :=
  ((sentTxs t).map (fun tx => tx.instructions.filterMap (fun i =>
    match i with
    | .splTransfer _ _ _ a => some a
    | _ => none))).flatten

/-- The amounts passed to the mintTo client calls of a trace. -/
def mintToAmounts (t : List NetCall) : List Int :=
  t.filterMap (fun c => match c with
    | .mintToCall _ _ a => some a
    | _ => none)

/-- The amounts passed to the burn client calls of a trace. -/
def burnAmounts (t : List NetCall) : List Int :=
  t.filterMap (fun c => match c with
    | .burnCall _ _ a => some a
    | _ => none)

/-- The amounts passed to the approve client calls of a trace. -/
def approveAmounts (t : List NetCall) : List Int :=
  t.filterMap (fun c => match c with
    | .approveCall _ _ a => some a
    | _ => none)

/-! ### Claim C10: raw versus decimal-scaled amount interpretation -/

/-- C10: transfer_tokens submits the raw floor(amount) with no decimals
fetch (its trace contains no getMint call), while mint_tokens, burn_tokens
and approve_delegate each fetch the mint decimals on every call and submit
floor(amount * 10^decimals). -/
theorem tokenAmount_interpretation (env : Env) (s : ServerState)
    (walletName toAddress tokenMint delegateAddress : String) (amount : Rat)
    (decimals : Nat) (ataExists : Bool) (bh sig : String) (w : Keypair)
    (pm pt pd : String)
    (hw : s.wallets.lookup walletName = some w)
    (hpm : publicKeyParse tokenMint = some pm)
    (hpt : publicKeyParse toAddress = some pt)
    (hpd : publicKeyParse delegateAddress = some pd) :
    (getMintCalls (handleTransferTokens env s walletName toAddress tokenMint
        amount ataExists bh sig).2.2 = [] ∧
     splTransferAmounts (handleTransferTokens env s walletName toAddress
        tokenMint amount ataExists bh sig).2.2 = [⌊amount⌋]) ∧
    (getMintCalls (handleMintTokens env s walletName tokenMint toAddress
        amount decimals ataExists bh sig).2.2 = [tokenMint] ∧
     mintToAmounts (handleMintTokens env s walletName tokenMint toAddress
        amount decimals ataExists bh sig).2.2 = [⌊amount * 10 ^ decimals⌋]) ∧
    (getMintCalls (handleBurnTokens env s walletName tokenMint amount
        decimals sig).2.2 = [tokenMint] ∧
     burnAmounts (handleBurnTokens env s walletName tokenMint amount
        decimals sig).2.2 = [⌊amount * 10 ^ decimals⌋]) ∧
    (getMintCalls (handleApproveDelegate env s walletName tokenMint
        delegateAddress amount decimals sig).2.2 = [tokenMint] ∧
     approveAmounts (handleApproveDelegate env s walletName tokenMint
        delegateAddress amount decimals sig).2.2 = [⌊amount * 10 ^ decimals⌋]) := by
  refine ⟨⟨?_, ?_⟩, ⟨?_, ?_⟩, ⟨?_, ?_⟩, ⟨?_, ?_⟩⟩ <;>
    cases ataExists <;>
      simp [handleTransferTokens, handleMintTokens, handleBurnTokens,
        handleApproveDelegate, hw, hpm, hpt, hpd, getMintCalls, sentTxs,
        splTransferAmounts, mintToAmounts, burnAmounts, approveAmounts]

/-- Concrete instantiation of the C10 theorem: at amount 5.75 and a 2-decimal
mint, transfer_tokens submits the raw 5 with no decimals fetch while mint,
burn and approve fetch the decimals and submit 575. -/
theorem tokenAmount_interpretation_witness :
    (getMintCalls (handleTransferTokens ⟨none, none, none, none, none⟩
        { initialState with wallets :=
            [("w", { secretKey := List.replicate 64 0, publicKey := "pk0" })] }
        "w" "11111111111111111111111111111111"
        "11111111111111111111111111111111" (575 / 100) true "bh" "sig").2.2 = [] ∧
     splTransferAmounts (handleTransferTokens ⟨none, none, none, none, none⟩
        { initialState with wallets :=
            [("w", { secretKey := List.replicate 64 0, publicKey := "pk0" })] }
        "w" "11111111111111111111111111111111"
        "11111111111111111111111111111111" (575 / 100) true "bh" "sig").2.2 = [5]) ∧
    (mintToAmounts (handleMintTokens ⟨none, none, none, none, none⟩
        { initialState with wallets :=
            [("w", { secretKey := List.replicate 64 0, publicKey := "pk0" })] }
        "w" "11111111111111111111111111111111"
        "11111111111111111111111111111111" (575 / 100) 2 true "bh" "sig").2.2 =
      [575]) ∧
    (burnAmounts (handleBurnTokens ⟨none, none, none, none, none⟩
        { initialState with wallets :=
            [("w", { secretKey := List.replicate 64 0, publicKey := "pk0" })] }
        "w" "11111111111111111111111111111111" (575 / 100) 2 "sig").2.2 =
      [575]) ∧
    (approveAmounts (handleApproveDelegate ⟨none, none, none, none, none⟩
        { initialState with wallets :=
            [("w", { secretKey := List.replicate 64 0, publicKey := "pk0" })] }
        "w" "11111111111111111111111111111111"
        "11111111111111111111111111111111" (575 / 100) 2 "sig").2.2 =
      [575]) := by
  have h := tokenAmount_interpretation ⟨none, none, none, none, none⟩
    { initialState with wallets :=
        [("w", { secretKey := List.replicate 64 0, publicKey := "pk0" })] }
    "w" "11111111111111111111111111111111" "11111111111111111111111111111111"
    "11111111111111111111111111111111" (575 / 100) 2 true "bh" "sig"
    { secretKey := List.replicate 64 0, publicKey := "pk0" }
    "11111111111111111111111111111111" "11111111111111111111111111111111"
    "11111111111111111111111111111111" (by decide) (by decide) (by decide)
    (by decide)
  have hfloor : (⌊(575 / 100 : Rat)⌋ : Int) = 5 := by norm_num
  have hscaled : (⌊(575 / 100 : Rat) * 10 ^ 2⌋ : Int) = 575 := by norm_num
  refine ⟨⟨h.1.1, ?_⟩, ?_, ?_, ?_⟩
  · rw [h.1.2, hfloor]
  · rw [h.2.1.2, hscaled]
  · rw [h.2.2.1.2, hscaled]
  · rw [h.2.2.2.2, hscaled]

/-! ### Dispatch front-end (the CallToolRequestSchema handler) -/

/-- JSON values, as produced by the handlers for the response payload. -/
inductive Json where
  | str (s : String)
  | num (n : Rat)
  | bool (b : Bool)
  | null
  | arr (elems : List Json)
  | obj (fields : List (String × Json))

mutual

/-- Compact rendering of a JSON value (the source pretty-prints with
JSON.stringify(result, null, 2); only the encoding, not the whitespace, is
modelled). -/
def Json.render : Json → String
  | .str s => "\"" ++ s ++ "\""
  | .num n => toString n
  | .bool b => toString b
  | .null => "null"
  | .arr es => "[" ++ Json.renderList es ++ "]"
  | .obj fs => "\x7b" ++ Json.renderFields fs ++ "\x7d"

/-- Rendering of a JSON array body. -/
def Json.renderList : List Json → String
  | [] => ""
  | [x] => Json.render x
  | x :: xs => Json.render x ++ "," ++ Json.renderList xs

/-- Rendering of a JSON object body. -/
def Json.renderFields : List (String × Json) → String
  | [] => ""
  | [(k, v)] => "\"" ++ k ++ "\":" ++ Json.render v
  | (k, v) :: xs =>
    "\"" ++ k ++ "\":" ++ Json.render v ++ "," ++ Json.renderFields xs

end

/-- JSON shape of a create_wallet result. -/
def CreateWalletResult.toJson (r : CreateWalletResult) : Json :=
  .obj [("success", .bool true),
        ("wallet", .obj [("name", .str r.name), ("address", .str r.address),
                         ("privateKey", .str r.privateKey)])]

/-- JSON shape of an import_wallet result. -/
def ImportWalletResult.toJson (r : ImportWalletResult) : Json :=
  .obj [("success", .bool true),
        ("wallet", .obj [("name", .str r.name), ("address", .str r.address)])]

/-- JSON shape of a list_wallets result. -/
def WalletListing.toJson (r : WalletListing) : Json :=
  .obj [("wallets", .arr (r.names.map (fun p =>
          .obj [("name", .str p.1), ("address", .str p.2)]))),
        ("count", .num r.count)]

/-- JSON shape of a get_token_balance result (optional fields are dropped
when absent, as JSON.stringify drops undefined members). -/
def TokenBalanceResult.toJson (r : TokenBalanceResult) : Json :=
  .obj ([("wallet", .str r.wallet), ("tokenMint", .str r.tokenMint),
         ("balance", .str r.balance)] ++
        (match r.decimals with
         | some d => [("decimals", Json.str d)]
         | none => []) ++
        (match r.errorNote with
         | some e => [("error", Json.str e)]
         | none => []))

/-- JSON shape of a transfer result. -/
def TransferResult.toJson (r : TransferResult) : Json :=
  .obj [("success", .bool r.success), ("signature", .str r.signature),
        ("explorerUrl", .str r.explorerUrl)]

/-- JSON shape of an airdrop result. -/
def AirdropResult.toJson (r : AirdropResult) : Json :=
  .obj [("success", .bool r.success), ("signature", .str r.signature),
        ("amount", .num r.amount), ("explorerUrl", .str r.explorerUrl)]

/-- JSON shape of a get_recent_blockhash result. -/
def BlockhashResult.toJson (r : BlockhashResult) : Json :=
  .obj [("blockhash", .str r.blockhash), ("network", .str r.network)]

/-- JSON shape of a switch_network result. -/
def SwitchResult.toJson (r : SwitchResult) : Json :=
  .obj ([("success", .bool r.success), ("network", .str r.network)] ++
        (match r.rpcUrl with
         | some u => [("rpcUrl", Json.str u)]
         | none => []))

/-- JSON shape of a get_network_info result. -/
def NetworkInfoResult.toJson (r : NetworkInfoResult) : Json :=
  .obj ([("network", .str r.network)] ++
        (match r.rpcUrl with
         | some u => [("rpcUrl", Json.str u)]
         | none => []) ++
        [("version", .str r.version), ("epoch", .num r.epoch),
         ("slotIndex", .num r.slotIndex), ("slotsInEpoch", .num r.slotsInEpoch)])

/-- JSON shape of a health_check result. -/
def HealthResult.toJson (r : HealthResult) : Json :=
  .obj ([("status", .str r.status),
         ("checks", .obj ([("server", .str "healthy"),
                           ("network", .str r.network)] ++
                          (match r.rpcUrl with
                           | some u => [("rpcUrl", Json.str u)]
                           | none => []) ++
                          [("connection", .str r.connectionCheck),
                           ("walletsLoaded", .num r.walletsLoaded)]))] ++
        (match r.solanaVersion with
         | some v => [("solanaVersion", Json.str v)]
         | none => []) ++
        (match r.errMsg with
         | some e => [("error", Json.str e)]
         | none => []))

/-- JSON shape of a mint_tokens result. -/
def MintResult.toJson (r : MintResult) : Json :=
  .obj [("success", .bool r.success), ("signature", .str r.signature),
        ("amount", .num r.amount), ("tokenMint", .str r.tokenMint),
        ("destination", .str r.destination), ("explorerUrl", .str r.explorerUrl)]

/-- JSON shape of a burn_tokens result. -/
def BurnResult.toJson (r : BurnResult) : Json :=
  .obj [("success", .bool r.success), ("signature", .str r.signature),
        ("amount", .num r.amount), ("tokenMint", .str r.tokenMint),
        ("explorerUrl", .str r.explorerUrl)]

/-- JSON shape of an approve_delegate result. -/
def ApproveResult.toJson (r : ApproveResult) : Json :=
  .obj [("success", .bool r.success), ("signature", .str r.signature),
        ("delegate", .str r.delegate), ("amount", .num r.amount),
        ("explorerUrl", .str r.explorerUrl)]

/-- The named-argument bag of an invoke-operation request (one field per
distinct argument name used by the modelled handlers). -/
structure ToolArgs where
  name : String
  privateKey : String
  walletName : String
  fromWallet : String
  toAddress : String
  tokenMint : String
  destinationAddress : String
  delegateAddress : String
  network : String
  amount : Rat

/-- Oracle data standing for the ledger/token-client call results consumed
while serving one request; passThrough is the outcome of the handlers that
are thin pass-throughs to the external clients, which the dispatch claim
does not inspect. -/
structure Oracles where
  gen : Keypair
  acct : Option TokenAcct
  ataExists : Bool
  decimals : Nat
  blockhash : String
  sig : String
  version : String
  epoch : Nat
  slotIndex : Nat
  slotsInEpoch : Nat
  versionCall : AsyncOp String
  passThrough : Except String Json

/-- Lift a handler outcome into the dispatch layer by JSON-encoding the
success payload (call traces are not inspected at this layer). -/
def viaJson {R : Type} (f : R → Json) (h : HandlerOut R) :
    Except String Json × ServerState :=
  (h.1.map f, h.2.1)

/-- The switch over operation names inside the call-tool request handler.
The state effects of the pass-through handlers are elided (their outcome is
the passThrough oracle); the default branch throws the unknown-tool
error. -/
def invokeTool (env : Env) (s : ServerState) (o : Oracles) (name : String)
    (a : ToolArgs) : Except String Json × ServerState :=
  if name = "create_wallet" then
    viaJson CreateWalletResult.toJson (handleCreateWallet s o.gen a.name)
  else if name = "import_wallet" then
    viaJson ImportWalletResult.toJson (handleImportWallet s a.name a.privateKey)
  else if name = "list_wallets" then
    viaJson WalletListing.toJson (handleListWallets s)
  else if name = "get_balance" then (o.passThrough, s)
  else if name = "get_token_balance" then
    viaJson TokenBalanceResult.toJson
      (handleGetTokenBalance env s a.walletName a.tokenMint o.acct)
  else if name = "transfer_sol" then
    viaJson TransferResult.toJson
      (handleTransferSol env s a.fromWallet a.toAddress a.amount o.blockhash o.sig)
  else if name = "transfer_tokens" then
    viaJson TransferResult.toJson
      (handleTransferTokens env s a.fromWallet a.toAddress a.tokenMint a.amount
        o.ataExists o.blockhash o.sig)
  else if name = "airdrop_sol" then
    viaJson AirdropResult.toJson
      (handleAirdropSol env s a.walletName a.amount o.sig)
  else if name = "get_account_info" then (o.passThrough, s)
  else if name = "get_transaction" then (o.passThrough, s)
  else if name = "get_recent_blockhash" then
    viaJson BlockhashResult.toJson (handleGetRecentBlockhash env s o.blockhash)
  else if name = "switch_network" then
    viaJson SwitchResult.toJson (handleSwitchNetwork env s a.network)
  else if name = "get_network_info" then
    viaJson NetworkInfoResult.toJson
      (handleGetNetworkInfo env s o.version o.epoch o.slotIndex o.slotsInEpoch)
  else if name = "create_token_account" then (o.passThrough, s)
  else if name = "get_token_accounts" then (o.passThrough, s)
  else if name = "create_spl_token" then (o.passThrough, s)
  else if name = "mint_tokens" then
    viaJson MintResult.toJson
      (handleMintTokens env s a.walletName a.tokenMint a.destinationAddress
        a.amount o.decimals o.ataExists o.blockhash o.sig)
  else if name = "burn_tokens" then
    viaJson BurnResult.toJson
      (handleBurnTokens env s a.walletName a.tokenMint a.amount o.decimals o.sig)
  else if name = "freeze_account" then (o.passThrough, s)
  else if name = "thaw_account" then (o.passThrough, s)
  else if name = "set_token_authority" then (o.passThrough, s)
  else if name = "get_token_supply" then (o.passThrough, s)
  else if name = "close_token_account" then (o.passThrough, s)
  else if name = "approve_delegate" then
    viaJson ApproveResult.toJson
      (handleApproveDelegate env s a.walletName a.tokenMint a.delegateAddress
        a.amount o.decimals o.sig)
  else if name = "revoke_delegate" then (o.passThrough, s)
  else if name = "health_check" then
    viaJson HealthResult.toJson (handleHealthCheck env s o.versionCall)
  else if name = "get_transaction_history" then (o.passThrough, s)
  else if name = "get_token_info" then (o.passThrough, s)
  else if name = "get_all_token_balances" then (o.passThrough, s)
  else (.error ("Unknown tool: " ++ name), s)

/-- The case labels of the dispatch switch, i.e. the registered operation
names. -/
def toolSwitchNames : List String :=
  ["create_wallet", "import_wallet", "list_wallets", "get_balance",
   "get_token_balance", "transfer_sol", "transfer_tokens", "airdrop_sol",
   "get_account_info", "get_transaction", "get_recent_blockhash",
   "switch_network", "get_network_info", "create_token_account",
   "get_token_accounts", "create_spl_token", "mint_tokens", "burn_tokens",
   "freeze_account", "thaw_account", "set_token_authority",
   "get_token_supply", "close_token_account", "approve_delegate",
   "revoke_delegate", "health_check", "get_transaction_history",
   "get_token_info", "get_all_token_balances"]

/-- The wire response: one text payload plus the error flag (false models
the flag being absent on success). -/
structure ToolResponse where
  text : String
  isError : Bool
deriving DecidableEq

/-- The try/catch boundary of the call-tool request handler: a success
payload is JSON-encoded, a thrown failure becomes a normal response with the
error flag and the Error: prefix. -/
def callToolEnvelope (outcome : Except String Json) : ToolResponse :=
  match outcome with
  | .ok r => { text := Json.render r, isError := false }
  | .error e => { text := "Error: " ++ e, isError := true }

/-- The complete call-tool request handler: dispatch then envelope. -/
def callTool (env : Env) (s : ServerState) (o : Oracles) (name : String)
    (a : ToolArgs) : ToolResponse × ServerState :=
  let out := invokeTool env s o name a
  (callToolEnvelope out.1, out.2)

/-! ### Claim C8: every request yields a normal enveloped response -/

/-- C8: for every invoke-operation request, one naming an unregistered
operation included, the dispatch front-end produces a normal response: a
handler failure becomes the error flag plus a single text payload Error:
followed by the failure message, a handler success becomes the JSON-encoded
result with the flag absent, and an unregistered name takes the failure
branch with the unknown-tool message. -/
theorem callTool_normal_response (env : Env) (s : ServerState) (o : Oracles)
    (name : String) (a : ToolArgs) :
    (∀ m, (invokeTool env s o name a).1 = .error m →
      (callTool env s o name a).1 = { text := "Error: " ++ m, isError := true }) ∧
    (∀ j, (invokeTool env s o name a).1 = .ok j →
      (callTool env s o name a).1 =
        { text := Json.render j, isError := false }) ∧
    (name ∉ toolSwitchNames →
      (callTool env s o name a).1 =
        { text := "Error: " ++ ("Unknown tool: " ++ name), isError := true }) := by
  refine ⟨?_, ?_, ?_⟩
  · intro m h; simp [callTool, callToolEnvelope, h]
  · intro j h; simp [callTool, callToolEnvelope, h]
  · intro h
    simp only [toolSwitchNames, List.mem_cons, List.not_mem_nil, or_false,
      not_or] at h
    obtain ⟨h1, h2, h3, h4, h5, h6, h7, h8, h9, h10, h11, h12, h13, h14, h15,
      h16, h17, h18, h19, h20, h21, h22, h23, h24, h25, h26, h27, h28, h29⟩ := h
    simp [callTool, invokeTool, callToolEnvelope, h1, h2, h3, h4, h5, h6, h7,
      h8, h9, h10, h11, h12, h13, h14, h15, h16, h17, h18, h19, h20, h21, h22,
      h23, h24, h25, h26, h27, h28, h29]

/-- Concrete instantiation of the C8 theorem: a request naming the
unregistered operation frobnicate yields a normal response carrying the
error flag and the unknown-tool message. -/
theorem callTool_normal_response_witness :
    ("frobnicate" ∉ toolSwitchNames) ∧
    (callTool ⟨none, none, none, none, none⟩ initialState
        ⟨⟨List.replicate 64 0, "pk"⟩, none, true, 0, "b", "s", "v", 0, 0, 0,
         ⟨none, .error "e"⟩, .error "x"⟩
        "frobnicate" ⟨"", "", "", "", "", "", "", "", "", 0⟩).1 =
      { text := "Error: " ++ ("Unknown tool: " ++ "frobnicate"),
        isError := true } := by
  refine ⟨by decide, ?_⟩
  exact (callTool_normal_response ⟨none, none, none, none, none⟩ initialState
    ⟨⟨List.replicate 64 0, "pk"⟩, none, true, 0, "b", "s", "v", 0, 0, 0,
     ⟨none, .error "e"⟩, .error "x"⟩
    "frobnicate" ⟨"", "", "", "", "", "", "", "", "", 0⟩).2.2 (by decide)
